import Mathlib

/-!
Verification of the weewx chill-hours extension (src/chillTime.py and
src/chill_hours.py) against its specification.

The two Python files define XType providers computing a derived metric
("chillTime" / "chillHours"). This file embeds the per-record scalar
computation, the range aggregate, construction and configuration handling,
and registry registration, and proves the spec claims about them.

Conventions of the embedding:
- Python numbers are modelled as rationals.
- A Python exception is an element of PyError; fallible code returns
  Except PyError.
- A record field is modelled as none when the key is absent, some none when
  the key is present with value null (Python None), and some (some v) for a
  numeric value.
- The host weewx unit machinery is external to the repository; the small
  fragment this extension calls is modelled from the weewx contract and
  marked as such in doc comments.
-/

namespace ChillXType

/-- The Python exception outcomes that the embedded code can produce.
unknownType, cannotCalculate and unknownAggregation model the weewx
exceptions of the same names; valueError models the ValueError raised on an
unrecognised algorithm; typeError models a TypeError from arithmetic on
None; keyError models a missing mapping key; nameError models use of a
never-assigned local variable. -/
inductive PyError where
  | unknownType (s : String)
  | cannotCalculate (s : String)
  | unknownAggregation (s : String)
  | valueError (s : String)
  | typeError
  | keyError
  | nameError
  deriving DecidableEq

/-- Model of weewx.units.ValueTuple: a value tagged with its unit name and
unit group. -/
structure ValueTuple where
  value : ℚ
  unit : String
  group : String
  deriving DecidableEq

/-- An archive record as used by this extension. usUnits is the weewx
unit-system tag (weewx.US = 1, weewx.METRIC = 16, weewx.METRICWX = 17);
outTemp and interval follow the field convention described at the top of
the file. -/
structure Record where
  usUnits : Nat
  outTemp : Option (Option ℚ)
  interval : Option (Option ℚ)
  deriving DecidableEq

/-- Modelled from the external weewx contract: the unit group of each
observation type this extension touches (weewx.units.obs_group_dict). -/
def obsGroup (obs : String) : String :=
  if obs = "outTemp" then "group_temperature"
  else if obs = "interval" then "group_interval"
  else if obs = "chillTime" ∨ obs = "chillHours" then "group_elapsed"
  else ""

/-- Modelled from the external weewx contract: the standard unit a group has
in a given unit system. Temperature is degree_F in the US system (tag 1)
and degree_C in METRIC and METRICWX; interval is minutes and elapsed time
is seconds in every unit system. -/
def stdUnit (usUnits : Nat) (group : String) : String :=
  if group = "group_temperature" then
    (if usUnits = 1 then "degree_F" else "degree_C")
  else if group = "group_interval" then "minute"
  else if group = "group_elapsed" then "second"
  else ""

/-- Modelled from the external weewx contract
(weewx.units.getStandardUnitType): unit and group of an observation type in
a unit system. -/
def getStandardUnitType (usUnits : Nat) (obs : String) : String × String :=
  (stdUnit usUnits (obsGroup obs), obsGroup obs)

/-- Modelled from the external weewx contract (weewx.units.convert),
restricted to the conversions this extension performs. -/
def convertValue (fromUnit toUnit : String) (v : ℚ) : ℚ :=
  if fromUnit = toUnit then v
  else if fromUnit = "degree_C" ∧ toUnit = "degree_F" then v * 9 / 5 + 32
  else if fromUnit = "minute" ∧ toUnit = "hour" then v / 60
  else if fromUnit = "hour" ∧ toUnit = "second" then v * 3600
  else if fromUnit = "second" ∧ toUnit = "hour" then v / 3600
  else v

/-- Modelled from the external weewx contract (weewx.units.convertStd):
convert a tagged value to the standard unit its group has in the target
unit system. -/
def convertStd (vt : ValueTuple) (usUnits : Nat) : ValueTuple :=
  ⟨convertValue vt.unit (stdUnit usUnits vt.group) vt.value,
    stdUnit usUnits vt.group, vt.group⟩

/-- Model of the Python str.lower character map on the ASCII range, which
covers the configuration strings involved: uppercase ASCII letters are
shifted down by 32 code points, everything else is unchanged. -/
def pyLowerChar (c : Char) : Char :=
  if 65 ≤ c.toNat ∧ c.toNat ≤ 90 then Char.ofNat (c.toNat + 32) else c

/-- Model of Python str.lower (ASCII range): apply pyLowerChar to every
character. -/
def pyLower (s : String) : String :=
  ⟨s.data.map pyLowerChar⟩

/-- The ChillTime XType of src/chillTime.py. The only state is the stored
algorithm name. -/
structure ChillTime where
  algorithm : String
  deriving DecidableEq

/-- src/chillTime.py lines 45-47: the constructor lower-cases and stores the
algorithm name; nothing is validated at construction time, so construction
is a total function. -/
def ChillTime.init (algorithm : String := "simple") : ChillTime :=
  ⟨pyLower algorithm⟩

/-- src/chillTime.py lines 83-119 (textually identical to src/chill_hours.py
lines 76-112): the per-record chill contribution, given the stored algorithm
name, the temperature already normalised to degrees Fahrenheit and the
interval already normalised to hours. The utah chain of the source has no
else arm, so a fall-through there would leave chill_time unassigned and
raise a NameError at its next use; that arm is modelled as an error. An
unrecognised algorithm name raises ValueError. -/
def chillScalarCalc (algorithm : String) (t h : ℚ) : Except PyError ℚ :=
  if algorithm = "simple" then
    .ok (if t < 45 then h else 0)
  else if algorithm = "utah" then
    if t ≤ 34 then .ok 0
    else if 34 < t ∧ t ≤ 36 then .ok (h * 0.5)
    else if 36 < t ∧ t ≤ 48 then .ok h
    else if 48 < t ∧ t ≤ 54 then .ok (h * 0.5)
    else if 54 < t ∧ t ≤ 60 then .ok 0
    else if 60 < t ∧ t ≤ 65 then .ok (h * -0.5)
    else if 65 < t then .ok (h * -1)
    else .error .nameError
  else if algorithm = "modified" then
    .ok (if t < 45 ∧ 32 < t then h else 0)
  else .error (.valueError algorithm)

/-- src/chillTime.py lines 55-124: ChillTime.get_scalar. The two sequential
null and presence checks of the source both raise CannotCalculate with the
observation type, so they are collapsed into one match. The result is
returned in hours: the conversion back to the unit system of the record is
commented out in the source (lines 122-124). -/
def ChillTime.get_scalar (self : ChillTime) (obs_type : String)
    (record : Record) : Except PyError ValueTuple :=
  if obs_type ≠ "chillTime" then .error (.unknownType obs_type)
  else
    match record.outTemp, record.interval with
    | some (some temp), some (some itv) =>
      let outTemp_F :=
        convertValue (getStandardUnitType record.usUnits "outTemp").1 "degree_F" temp
      let interval_H :=
        convertValue (getStandardUnitType record.usUnits "interval").1 "hour" itv
      match chillScalarCalc self.algorithm outTemp_F interval_H with
      | .ok chill_time => .ok ⟨chill_time, "hour", "group_elapsed"⟩
      | .error e => .error e
    | _, _ => .error (.cannotCalculate obs_type)

/-- The ChillHours XType of src/chill_hours.py. -/
structure ChillHours where
  algorithm : String
  deriving DecidableEq

/-- src/chill_hours.py lines 44-46: same constructor as ChillTime.init. -/
def ChillHours.init (algorithm : String := "simple") : ChillHours :=
  ⟨pyLower algorithm⟩

/-- src/chill_hours.py lines 48-117: ChillHours.get_scalar. Identical to
ChillTime.get_scalar except for the metric name and that the result is
converted back to the unit system of the incoming record with convertStd
before being returned (line 117). -/
def ChillHours.get_scalar (self : ChillHours) (obs_type : String)
    (record : Record) : Except PyError ValueTuple :=
  if obs_type ≠ "chillHours" then .error (.unknownType obs_type)
  else
    match record.outTemp, record.interval with
    | some (some temp), some (some itv) =>
      let outTemp_F :=
        convertValue (getStandardUnitType record.usUnits "outTemp").1 "degree_F" temp
      let interval_H :=
        convertValue (getStandardUnitType record.usUnits "interval").1 "hour" itv
      match chillScalarCalc self.algorithm outTemp_F interval_H with
      | .ok chill_time =>
        .ok (convertStd ⟨chill_time, "hour", "group_elapsed"⟩ record.usUnits)
      | .error e => .error e
    | _, _ => .error (.cannotCalculate obs_type)

/-- Python arithmetic None * k: multiplying None by a number raises
TypeError (src/chillTime.py lines 202, 206, 210, 212 when interval_H is
null). -/
def optMul (h : Option ℚ) (k : ℚ) : Except PyError (Option ℚ) :=
  match h with
  | some v => .ok (some (v * k))
  | none => .error .typeError

/-- src/chillTime.py lines 191-224: the branch computation of the aggregate
loop, on a possibly-null temperature and possibly-null interval (both
already normalised). The source guards every algorithm arm with
outTemp_F != None and handles outTemp_F == None in a later elif that sets
the contribution to 0; matching on the temperature first is equivalent,
because each algorithm arm requires a non-null temperature and the null arm
does not inspect the algorithm name. A null interval flows through: the
simple and modified arms and the unweighted utah band pass it on unchanged,
while the weighted utah bands multiply it and raise TypeError. -/
def aggLoopCalc (algorithm : String) (t h : Option ℚ) :
    Except PyError (Option ℚ) :=
  match t with
  | none => .ok (some 0)
  | some tF =>
    if algorithm = "simple" then
      .ok (if tF < 45 then h else some 0)
    else if algorithm = "utah" then
      if tF ≤ 34 then .ok (some 0)
      else if 34 < tF ∧ tF ≤ 36 then optMul h 0.5
      else if 36 < tF ∧ tF ≤ 48 then .ok h
      else if 48 < tF ∧ tF ≤ 54 then optMul h 0.5
      else if 54 < tF ∧ tF ≤ 60 then .ok (some 0)
      else if 60 < tF ∧ tF ≤ 65 then optMul h (-0.5)
      else if 65 < tF then optMul h (-1)
      else .error .nameError
    else if algorithm = "modified" then
      .ok (if tF < 45 ∧ 32 < tF then h else some 0)
    else .error (.valueError algorithm)

/-- One iteration of the aggregate loop of src/chillTime.py (lines 172-225)
on one record: read outTemp and interval (a missing key raises KeyError),
convert them null-tolerantly to degrees Fahrenheit and hours (the weewx
convert contract maps null to null), compute the branch contribution, and
add it to the running total; adding a null contribution to the total raises
TypeError (line 225). -/
def ChillTime.aggStep (self : ChillTime) (total : ℚ) (record : Record) :
    Except PyError ℚ :=
  match record.outTemp, record.interval with
  | some tRaw, some iRaw =>
    let outTemp_F := tRaw.map
      (convertValue (getStandardUnitType record.usUnits "outTemp").1 "degree_F")
    let interval_H := iRaw.map
      (convertValue (getStandardUnitType record.usUnits "interval").1 "hour")
    match aggLoopCalc self.algorithm outTemp_F interval_H with
    | .ok (some chill_time) => .ok (total + chill_time)
    | .ok none => .error .typeError
    | .error e => .error e
  | _, _ => .error .keyError

/-- src/chillTime.py lines 126-231: ChillTime.get_aggregate, with the
record stream of db_manager.genBatchRecords over the timespan supplied as
an explicit list. The sql statement formatted at line 149 is never executed
and the usUnits probe at lines 168-169 is overwritten before use, so
neither is observable; the total starts at 0 (line 165) and the result is
returned in hours (lines 226-231, the conversion back being commented
out). -/
def ChillTime.get_aggregate (self : ChillTime)
    (obs_type aggregate_type : String) (records : List Record) :
    Except PyError ValueTuple :=
  if obs_type ≠ "chillTime" then .error (.unknownType obs_type)
  else if aggregate_type ≠ "sum" then
    .error (.unknownAggregation aggregate_type)
  else
    match records.foldlM self.aggStep 0 with
    | .ok chill_total => .ok ⟨chill_total, "hour", "group_elapsed"⟩
    | .error e => .error e

/-- src/chillTime.py lines 242-246 and src/chill_hours.py lines 129-133:
read the optional algorithm entry of the configuration section, defaulting
to "simple" when the section or the entry is absent (KeyError). -/
def configAlgorithm (entry : Option String) : String :=
  match entry with
  | some a => a
  | none => "simple"

/-- src/chillTime.py lines 239-249: the ChillTime instance that
ChillTimeService constructs from the configuration. -/
def ChillTimeService.makeChillTime (entry : Option String) : ChillTime :=
  ChillTime.init (configAlgorithm entry)

/-- src/chill_hours.py lines 126-136: the ChillHours instance that
ChillHoursService constructs from the configuration. -/
def ChillHoursService.makeChillHours (entry : Option String) : ChillHours :=
  ChillHours.init (configAlgorithm entry)

/-- src/chillTime.py line 251 and src/chill_hours.py line 138: service
startup appends the freshly constructed instance to the host-owned ordered
provider list weewx.xtypes.xtypes. Python object identity is modelled by a
Nat id; the registry is the list of registered ids. -/
def registerXType (xtypes : List Nat) (ch : Nat) : List Nat :=
  xtypes ++ [ch]

/-- src/chillTime.py line 255 and src/chill_hours.py line 142: service
shutdown calls list.remove on the stored instance, which deletes the first
entry identical to it and leaves every other entry in place. -/
def removeXType : List Nat → Nat → List Nat
  | [], _ => []
  | a :: rest, x => if a = x then rest else a :: removeXType rest x

/-- The algorithm names recognised by the dispatch chains of both source
files. -/
def knownAlgorithm (a : String) : Bool :=
  a = "simple" || a = "utah" || a = "modified"

/-- A record as the archive database produces it for the aggregate loop:
both columns present, and the interval column non-null (the archive schema
always stores the interval); the temperature may still be null. -/
def Record.wellFormed (r : Record) : Bool :=
  r.outTemp.isSome &&
    (match r.interval with | some (some _) => true | _ => false)

/-- Spec-side restatement of the utah table: the chill contribution each
spec row assigns, written directly from the table of the specification. -/
def utahTable (t h : ℚ) : ℚ :=
  if t ≤ 34 then 0
  else if t ≤ 36 then 0.5 * h
  else if t ≤ 48 then h
  else if t ≤ 54 then 0.5 * h
  else if t ≤ 60 then 0
  else if t ≤ 65 then -0.5 * h
  else -h

/-- The number of utah band conditions, exactly as the source writes them,
that a given temperature satisfies; the bands partition the rationals iff
this count is always 1. -/
def utahBandCount (t : ℚ) : Nat :=
  (if t ≤ 34 then 1 else 0) + (if 34 < t ∧ t ≤ 36 then 1 else 0) +
  (if 36 < t ∧ t ≤ 48 then 1 else 0) + (if 48 < t ∧ t ≤ 54 then 1 else 0) +
  (if 54 < t ∧ t ≤ 60 then 1 else 0) + (if 60 < t ∧ t ≤ 65 then 1 else 0) +
  (if 65 < t then 1 else 0)

/-- Spec-side description of one aggregate contribution: a record with a
null or absent temperature contributes 0, and any other record contributes
exactly what ChillTime.get_scalar computes for it. -/
def specContribution (self : ChillTime) (r : Record) : ℚ :=
  match r.outTemp with
  | some (some _) =>
    match self.get_scalar "chillTime" r with
    | .ok vt => vt.value
    | .error _ => 0
  | _ => 0

/-- Spec-side description of the sum aggregate: the arithmetic sum of the
per-record contributions. -/
def specAggregateSum (self : ChillTime) (records : List Record) : ℚ :=
  (records.map (specContribution self)).sum

/-! ## Helper lemmas -/

/-- The utah chain of the source computes exactly the spec table; in
particular its modelled NameError arm is unreachable, so the utah
contribution is defined for every temperature. -/
lemma chillScalarCalc_utah (t h : ℚ) :
    chillScalarCalc "utah" t h = .ok (utahTable t h) := by
  have e : chillScalarCalc "utah" t h =
      (if t ≤ 34 then .ok 0
       else if 34 < t ∧ t ≤ 36 then .ok (h * 0.5)
       else if 36 < t ∧ t ≤ 48 then .ok h
       else if 48 < t ∧ t ≤ 54 then .ok (h * 0.5)
       else if 54 < t ∧ t ≤ 60 then .ok 0
       else if 60 < t ∧ t ≤ 65 then .ok (h * -0.5)
       else if 65 < t then .ok (h * -1)
       else .error .nameError : Except PyError ℚ) := by
    simp [chillScalarCalc]
  rw [e]
  unfold utahTable
  rcases le_or_lt t 34 with h1 | h1
  · rw [if_pos h1, if_pos h1]
  rw [if_neg (not_le.mpr h1), if_neg (not_le.mpr h1)]
  rcases le_or_lt t 36 with h2 | h2
  · rw [if_pos ⟨h1, h2⟩, if_pos h2]
    exact congrArg Except.ok (mul_comm h 0.5)
  have n2 : ¬(34 < t ∧ t ≤ 36) := fun hc => absurd hc.2 (not_le.mpr h2)
  rw [if_neg n2, if_neg (not_le.mpr h2)]
  rcases le_or_lt t 48 with h3 | h3
  · rw [if_pos ⟨h2, h3⟩, if_pos h3]
  have n3 : ¬(36 < t ∧ t ≤ 48) := fun hc => absurd hc.2 (not_le.mpr h3)
  rw [if_neg n3, if_neg (not_le.mpr h3)]
  rcases le_or_lt t 54 with h4 | h4
  · rw [if_pos ⟨h3, h4⟩, if_pos h4]
    exact congrArg Except.ok (mul_comm h 0.5)
  have n4 : ¬(48 < t ∧ t ≤ 54) := fun hc => absurd hc.2 (not_le.mpr h4)
  rw [if_neg n4, if_neg (not_le.mpr h4)]
  rcases le_or_lt t 60 with h5 | h5
  · rw [if_pos ⟨h4, h5⟩, if_pos h5]
  have n5 : ¬(54 < t ∧ t ≤ 60) := fun hc => absurd hc.2 (not_le.mpr h5)
  rw [if_neg n5, if_neg (not_le.mpr h5)]
  rcases le_or_lt t 65 with h6 | h6
  · rw [if_pos ⟨h5, h6⟩, if_pos h6]
    refine congrArg Except.ok ?_
    ring
  have n6 : ¬(60 < t ∧ t ≤ 65) := fun hc => absurd hc.2 (not_le.mpr h6)
  rw [if_neg n6, if_neg (not_le.mpr h6), if_pos h6]
  refine congrArg Except.ok ?_
  ring

/-- Every temperature satisfies exactly one of the seven utah band
conditions as the source writes them. -/
lemma utahBandCount_eq_one (t : ℚ) : utahBandCount t = 1 := by
  unfold utahBandCount
  split_ifs <;> simp_all <;> linarith

/-- On a non-null temperature and non-null interval, the aggregate loop
branch computes the same value as the scalar chain, wrapped in some. -/
lemma aggLoopCalc_some (alg : String) (halg : knownAlgorithm alg = true) (t hv : ℚ) :
    aggLoopCalc alg (some t) (some hv) = (chillScalarCalc alg t hv).map some := by
  simp only [knownAlgorithm, Bool.or_eq_true, decide_eq_true_eq] at halg
  rcases halg with (h | h) | h <;> subst h
  · rw [show aggLoopCalc "simple" (some t) (some hv) =
        .ok (if t < 45 then some hv else some 0) from rfl,
      show chillScalarCalc "simple" t hv = .ok (if t < 45 then hv else 0) from rfl]
    split_ifs <;> rfl
  · rw [show aggLoopCalc "utah" (some t) (some hv) =
        (if t ≤ 34 then .ok (some 0)
         else if 34 < t ∧ t ≤ 36 then optMul (some hv) 0.5
         else if 36 < t ∧ t ≤ 48 then .ok (some hv)
         else if 48 < t ∧ t ≤ 54 then optMul (some hv) 0.5
         else if 54 < t ∧ t ≤ 60 then .ok (some 0)
         else if 60 < t ∧ t ≤ 65 then optMul (some hv) (-0.5)
         else if 65 < t then optMul (some hv) (-1)
         else .error .nameError : Except PyError (Option ℚ)) from rfl,
      show chillScalarCalc "utah" t hv =
        (if t ≤ 34 then .ok 0
         else if 34 < t ∧ t ≤ 36 then .ok (hv * 0.5)
         else if 36 < t ∧ t ≤ 48 then .ok hv
         else if 48 < t ∧ t ≤ 54 then .ok (hv * 0.5)
         else if 54 < t ∧ t ≤ 60 then .ok 0
         else if 60 < t ∧ t ≤ 65 then .ok (hv * -0.5)
         else if 65 < t then .ok (hv * -1)
         else .error .nameError : Except PyError ℚ) from rfl]
    split_ifs <;> rfl
  · rw [show aggLoopCalc "modified" (some t) (some hv) =
        .ok (if t < 45 ∧ 32 < t then some hv else some 0) from rfl,
      show chillScalarCalc "modified" t hv =
        .ok (if t < 45 ∧ 32 < t then hv else 0) from rfl]
    split_ifs <;> rfl

/-- For a recognised algorithm name the scalar chain never raises. -/
lemma chillScalarCalc_known_ok (alg : String) (halg : knownAlgorithm alg = true)
    (t h : ℚ) : ∃ c, chillScalarCalc alg t h = .ok c := by
  simp only [knownAlgorithm, Bool.or_eq_true, decide_eq_true_eq] at halg
  rcases halg with (h' | h') | h' <;> subst h'
  · refine ⟨if t < 45 then h else 0, ?_⟩
    simp [chillScalarCalc]
  · exact ⟨utahTable t h, chillScalarCalc_utah t h⟩
  · refine ⟨if t < 45 ∧ 32 < t then h else 0, ?_⟩
    simp [chillScalarCalc]

/-- On a well-formed record the aggregate loop step adds exactly the
spec-side contribution to the running total. -/
lemma aggStep_wellFormed (self : ChillTime) (r : Record)
    (halg : knownAlgorithm self.algorithm = true) (hr : r.wellFormed = true)
    (acc : ℚ) :
    self.aggStep acc r = .ok (acc + specContribution self r) := by
  obtain ⟨us, tRaw, iRaw⟩ := r
  rcases tRaw with _ | t0
  · simp [Record.wellFormed] at hr
  rcases iRaw with _ | iv
  · simp [Record.wellFormed] at hr
  rcases iv with _ | i
  · simp [Record.wellFormed] at hr
  rcases t0 with _ | tv
  · simp [ChillTime.aggStep, aggLoopCalc, specContribution]
  · obtain ⟨c, hc⟩ := chillScalarCalc_known_ok self.algorithm halg
      (convertValue (getStandardUnitType us "outTemp").1 "degree_F" tv)
      (convertValue (getStandardUnitType us "interval").1 "hour" i)
    simp only [ChillTime.aggStep, Option.map_some']
    rw [aggLoopCalc_some _ halg, hc]
    simp [specContribution, ChillTime.get_scalar, hc, Except.map]

/-- The aggregate fold over well-formed records totals the spec-side sum. -/
lemma foldlM_aggStep (self : ChillTime) (halg : knownAlgorithm self.algorithm = true) :
    ∀ (records : List Record), records.all Record.wellFormed = true →
      ∀ acc : ℚ, List.foldlM self.aggStep acc records =
        .ok (acc + specAggregateSum self records) := by
  intro records
  induction records with
  | nil =>
    intro _ acc
    show Except.ok acc = .ok (acc + specAggregateSum self [])
    simp [specAggregateSum]
  | cons r rs ih =>
    intro h acc
    simp only [List.all_cons, Bool.and_eq_true] at h
    rw [List.foldlM_cons, aggStep_wellFormed self r halg h.1]
    show List.foldlM self.aggStep (acc + specContribution self r) rs = _
    rw [ih h.2 (acc + specContribution self r)]
    simp [specAggregateSum, add_assoc]

/-! ## Claim theorems -/

/-- C1: for every temperature T in degrees Fahrenheit and interval H in
hours, the per-record scalar computation returns exactly the tabulated
contribution: simple gives H when T < 45 and 0 when 45 <= T; modified gives
H when 32 < T < 45 and 0 otherwise, so T = 32 and T = 45 both give 0; utah
computes the seven-band spec table, whose band conditions are mutually
exclusive and cover every T (each T satisfies exactly one), so the utah
contribution is always defined. -/
theorem C1_get_scalar_bands (t h : ℚ) :
    chillScalarCalc "simple" t h = .ok (if t < 45 then h else 0) ∧
    chillScalarCalc "modified" t h = .ok (if 32 < t ∧ t < 45 then h else 0) ∧
    chillScalarCalc "modified" 32 h = .ok 0 ∧
    chillScalarCalc "modified" 45 h = .ok 0 ∧
    chillScalarCalc "utah" t h = .ok (utahTable t h) ∧
    utahBandCount t = 1 := by
  refine ⟨?_, ?_, ?_, ?_, chillScalarCalc_utah t h, utahBandCount_eq_one t⟩
  · simp [chillScalarCalc]
  · simp [chillScalarCalc, and_comm]
  · simp [chillScalarCalc]
  · simp [chillScalarCalc]

/-- C2: over a stream of well-formed archive records (fields present,
interval non-null) and a recognised algorithm, the sum aggregate returns
exactly the arithmetic sum of the per-record contributions, where a record
with a null temperature contributes 0 and every other record contributes
what get_scalar computes for it, and the total is tagged as an hours-valued
elapsed-duration quantity. -/
theorem C2_aggregate_sum (self : ChillTime) (records : List Record)
    (halg : knownAlgorithm self.algorithm = true)
    (hrec : records.all Record.wellFormed = true) :
    self.get_aggregate "chillTime" "sum" records =
      .ok ⟨specAggregateSum self records, "hour", "group_elapsed"⟩ := by
  rw [show self.get_aggregate "chillTime" "sum" records =
      (match records.foldlM self.aggStep 0 with
       | .ok chill_total => .ok ⟨chill_total, "hour", "group_elapsed"⟩
       | .error e => .error e) from rfl]
  rw [foldlM_aggStep self halg records hrec 0, zero_add]

/-- Witness for C2 at the spec aggregate example: three simple-algorithm
records at 30 F for 1 h, 50 F for 1 h and 40 F for 2 h sum to 3 hours. -/
theorem C2_aggregate_sum_witness :
    knownAlgorithm (ChillTime.mk "simple").algorithm = true ∧
    ([⟨1, some (some 30), some (some 60)⟩, ⟨1, some (some 50), some (some 60)⟩,
      ⟨1, some (some 40), some (some 120)⟩] : List Record).all Record.wellFormed = true ∧
    (ChillTime.mk "simple").get_aggregate "chillTime" "sum"
      [⟨1, some (some 30), some (some 60)⟩, ⟨1, some (some 50), some (some 60)⟩,
       ⟨1, some (some 40), some (some 120)⟩] =
      .ok ⟨specAggregateSum (ChillTime.mk "simple")
        [⟨1, some (some 30), some (some 60)⟩, ⟨1, some (some 50), some (some 60)⟩,
         ⟨1, some (some 40), some (some 120)⟩], "hour", "group_elapsed"⟩ ∧
    specAggregateSum (ChillTime.mk "simple")
      [⟨1, some (some 30), some (some 60)⟩, ⟨1, some (some 50), some (some 60)⟩,
       ⟨1, some (some 40), some (some 120)⟩] = 3 :=
  ⟨rfl, rfl, C2_aggregate_sum _ _ rfl rfl, by
    simp [specAggregateSum, specContribution, ChillTime.get_scalar, chillScalarCalc,
      convertValue, getStandardUnitType, stdUnit, obsGroup]
    norm_num⟩

/-- C3 counterexample: construction with the unrecognised algorithm name
bogus succeeds normally (it only case-folds and stores the name; the model
of the constructor is a total function because the source validates
nothing there), and the ValueError is raised only by the first get_scalar
call, refuting the claim that the error is raised at construction time
rather than deferred to first use. -/
theorem C3_counterexample :
    ChillTime.init "bogus" = ⟨"bogus"⟩ ∧
    (ChillTime.init "bogus").get_scalar "chillTime"
      ⟨1, some (some 40), some (some 60)⟩ = .error (.valueError "bogus") := by
  have e : ChillTime.init "bogus" = ⟨"bogus"⟩ := by decide
  refine ⟨e, ?_⟩
  rw [e]
  simp [ChillTime.get_scalar, chillScalarCalc, convertValue, getStandardUnitType,
    stdUnit, obsGroup]

/-- C3 amended: construction accepts any algorithm-name string, merely
case-folding and storing it; an unrecognised name raises ValueError only
when a get_scalar call first reaches the algorithm dispatch. -/
theorem C3_deferred_validation (s : String) (r : Record) (t i : ℚ)
    (halg : knownAlgorithm (pyLower s) = false)
    (ht : r.outTemp = some (some t)) (hi : r.interval = some (some i)) :
    ChillTime.init s = ⟨pyLower s⟩ ∧
    (ChillTime.init s).get_scalar "chillTime" r =
      .error (.valueError (pyLower s)) := by
  refine ⟨rfl, ?_⟩
  simp only [knownAlgorithm, Bool.or_eq_false_iff, decide_eq_false_iff_not] at halg
  obtain ⟨⟨h1, h2⟩, h3⟩ := halg
  obtain ⟨us, o, iv⟩ := r
  simp only at ht hi
  subst ht hi
  simp [ChillTime.init, ChillTime.get_scalar, chillScalarCalc, h1, h2, h3]

/-- Witness for C3 amended at the name Bogus and a complete record. -/
theorem C3_deferred_validation_witness :
    knownAlgorithm (pyLower "Bogus") = false ∧
    (ChillTime.init "Bogus").get_scalar "chillTime"
      ⟨1, some (some 40), some (some 60)⟩ =
      .error (.valueError (pyLower "Bogus")) :=
  ⟨by decide,
    (C3_deferred_validation "Bogus" ⟨1, some (some 40), some (some 60)⟩ 40 60
      (by decide) rfl rfl).2⟩

/-- C4 counterexample: for a US-units record at 40 F for 60 minutes,
ChillTime.get_scalar returns the tuple tagged hour, while the native
unit-system representation of that quantity (what convertStd would return,
and what src/chill_hours.py actually returns) is the same duration in
seconds; the two tuples differ, refuting the claim that get_scalar always
converts back to the unit system of the incoming record. -/
theorem C4_counterexample :
    (ChillTime.mk "simple").get_scalar "chillTime"
      ⟨1, some (some 40), some (some 60)⟩ = .ok ⟨1, "hour", "group_elapsed"⟩ ∧
    convertStd ⟨1, "hour", "group_elapsed"⟩ 1 = ⟨3600, "second", "group_elapsed"⟩ ∧
    (⟨1, "hour", "group_elapsed"⟩ : ValueTuple) ≠ ⟨3600, "second", "group_elapsed"⟩ := by
  refine ⟨?_, ?_, ?_⟩
  · simp [ChillTime.get_scalar, chillScalarCalc, convertValue, getStandardUnitType,
      stdUnit, obsGroup]
    norm_num
  · simp [convertStd, convertValue, stdUnit]
  · intro hc
    have : ("hour" : String) = "second" := congrArg ValueTuple.unit hc
    exact absurd this (by decide)

/-- C4 amended: whenever ChillTime.get_scalar succeeds it returns the
contribution unconditionally tagged in hours (the conversion back is
commented out in src/chillTime.py), while ChillHours.get_scalar on the same
record returns that same tuple converted back to the unit system of the
incoming record via convertStd (src/chill_hours.py line 117). -/
theorem C4_unit_contract (alg : String) (r : Record) (vt : ValueTuple)
    (h : (ChillTime.mk alg).get_scalar "chillTime" r = .ok vt) :
    vt.unit = "hour" ∧
    (ChillHours.mk alg).get_scalar "chillHours" r =
      .ok (convertStd vt r.usUnits) := by
  obtain ⟨us, o, iv⟩ := r
  rcases o with _ | o0
  · simp [ChillTime.get_scalar] at h
  rcases o0 with _ | tv
  · simp [ChillTime.get_scalar] at h
  rcases iv with _ | iv0
  · simp [ChillTime.get_scalar] at h
  rcases iv0 with _ | i
  · simp [ChillTime.get_scalar] at h
  rcases hc : chillScalarCalc alg (convertValue (getStandardUnitType us "outTemp").1 "degree_F" tv)
      (convertValue (getStandardUnitType us "interval").1 "hour" i) with e | c
  · rw [show (ChillTime.mk alg).get_scalar "chillTime"
        ⟨us, some (some tv), some (some i)⟩ =
        (match chillScalarCalc alg
            (convertValue (getStandardUnitType us "outTemp").1 "degree_F" tv)
            (convertValue (getStandardUnitType us "interval").1 "hour" i) with
         | .ok chill_time => .ok ⟨chill_time, "hour", "group_elapsed"⟩
         | .error e => .error e) from rfl, hc] at h
    simp at h
  · rw [show (ChillTime.mk alg).get_scalar "chillTime"
        ⟨us, some (some tv), some (some i)⟩ =
        (match chillScalarCalc alg
            (convertValue (getStandardUnitType us "outTemp").1 "degree_F" tv)
            (convertValue (getStandardUnitType us "interval").1 "hour" i) with
         | .ok chill_time => .ok ⟨chill_time, "hour", "group_elapsed"⟩
         | .error e => .error e) from rfl, hc] at h
    simp only [Except.ok.injEq] at h
    subst h
    refine ⟨rfl, ?_⟩
    rw [show (ChillHours.mk alg).get_scalar "chillHours"
        ⟨us, some (some tv), some (some i)⟩ =
        (match chillScalarCalc alg
            (convertValue (getStandardUnitType us "outTemp").1 "degree_F" tv)
            (convertValue (getStandardUnitType us "interval").1 "hour" i) with
         | .ok chill_time => .ok (convertStd ⟨chill_time, "hour", "group_elapsed"⟩ us)
         | .error e => .error e) from rfl, hc]

/-- Witness for C4 amended at a simple-algorithm record of 40 F for 60
minutes in US units. -/
theorem C4_unit_contract_witness :
    (⟨1, "hour", "group_elapsed"⟩ : ValueTuple).unit = "hour" ∧
    (ChillHours.mk "simple").get_scalar "chillHours"
      ⟨1, some (some 40), some (some 60)⟩ =
      .ok (convertStd ⟨1, "hour", "group_elapsed"⟩ 1) :=
  C4_unit_contract "simple" ⟨1, some (some 40), some (some 60)⟩
    ⟨1, "hour", "group_elapsed"⟩
    (by simp [ChillTime.get_scalar, chillScalarCalc, convertValue,
          getStandardUnitType, stdUnit, obsGroup]
        norm_num)

/-- C5: a scalar call on the matching metric whose record lacks the outTemp
or interval key, or carries a null value there, raises CannotCalculate in
both implementations, so no numeric value is ever returned silently. -/
theorem C5_missing_fields (ct : ChillTime) (chh : ChillHours) (r : Record)
    (h : r.outTemp = none ∨ r.outTemp = some none ∨
         r.interval = none ∨ r.interval = some none) :
    ct.get_scalar "chillTime" r = .error (.cannotCalculate "chillTime") ∧
    chh.get_scalar "chillHours" r = .error (.cannotCalculate "chillHours") := by
  obtain ⟨us, o, iv⟩ := r
  simp only at h
  rcases o with _ | o0
  · exact ⟨rfl, rfl⟩
  rcases o0 with _ | tv
  · exact ⟨rfl, rfl⟩
  rcases iv with _ | iv0
  · exact ⟨rfl, rfl⟩
  rcases iv0 with _ | i
  · exact ⟨rfl, rfl⟩
  simp at h

/-- Witness for C5 at a record with a null temperature. -/
theorem C5_missing_fields_witness :
    ((⟨1, some none, some (some 60)⟩ : Record).outTemp = none ∨
     (⟨1, some none, some (some 60)⟩ : Record).outTemp = some none ∨
     (⟨1, some none, some (some 60)⟩ : Record).interval = none ∨
     (⟨1, some none, some (some 60)⟩ : Record).interval = some none) ∧
    (ChillTime.mk "simple").get_scalar "chillTime" ⟨1, some none, some (some 60)⟩ =
      .error (.cannotCalculate "chillTime") ∧
    (ChillHours.mk "simple").get_scalar "chillHours" ⟨1, some none, some (some 60)⟩ =
      .error (.cannotCalculate "chillHours") :=
  ⟨by simp,
    (C5_missing_fields (ChillTime.mk "simple") (ChillHours.mk "simple")
      ⟨1, some none, some (some 60)⟩ (by simp)).1,
    (C5_missing_fields (ChillTime.mk "simple") (ChillHours.mk "simple")
      ⟨1, some none, some (some 60)⟩ (by simp)).2⟩

/-- C6: a metric name other than the supported one makes ChillTime decline
both the scalar and the aggregate call with UnknownType, and makes
ChillHours decline the scalar call with UnknownType, whatever the record
contents, the aggregate kind and the record stream. -/
theorem C6_unknown_metric (ct : ChillTime) (chh : ChillHours) (obs kind : String)
    (r : Record) (records : List Record) :
    (obs ≠ "chillTime" →
      ct.get_scalar obs r = .error (.unknownType obs) ∧
      ct.get_aggregate obs kind records = .error (.unknownType obs)) ∧
    (obs ≠ "chillHours" → chh.get_scalar obs r = .error (.unknownType obs)) := by
  refine ⟨fun h => ⟨?_, ?_⟩, fun h => ?_⟩
  · simp [ChillTime.get_scalar, h]
  · simp [ChillTime.get_aggregate, h]
  · simp [ChillHours.get_scalar, h]

/-- Witness for C6 at the metric name humidity. -/
theorem C6_unknown_metric_witness :
    ("humidity" : String) ≠ "chillTime" ∧ ("humidity" : String) ≠ "chillHours" ∧
    (ChillTime.mk "simple").get_scalar "humidity"
      ⟨1, some (some 40), some (some 60)⟩ = .error (.unknownType "humidity") ∧
    (ChillTime.mk "simple").get_aggregate "humidity" "avg"
      [⟨1, some (some 40), some (some 60)⟩] = .error (.unknownType "humidity") ∧
    (ChillHours.mk "simple").get_scalar "humidity"
      ⟨1, some (some 40), some (some 60)⟩ = .error (.unknownType "humidity") :=
  ⟨by decide, by decide,
    ((C6_unknown_metric (ChillTime.mk "simple") (ChillHours.mk "simple") "humidity"
      "avg" ⟨1, some (some 40), some (some 60)⟩
      [⟨1, some (some 40), some (some 60)⟩]).1 (by decide)).1,
    ((C6_unknown_metric (ChillTime.mk "simple") (ChillHours.mk "simple") "humidity"
      "avg" ⟨1, some (some 40), some (some 60)⟩
      [⟨1, some (some 40), some (some 60)⟩]).1 (by decide)).2,
    (C6_unknown_metric (ChillTime.mk "simple") (ChillHours.mk "simple") "humidity"
      "avg" ⟨1, some (some 40), some (some 60)⟩
      [⟨1, some (some 40), some (some 60)⟩]).2 (by decide)⟩

/-- C7: an aggregate call on the supported metric with any kind other than
sum declines with UnknownAggregation, and that signal is distinct from the
UnknownType signal used for unknown metrics. -/
theorem C7_unsupported_aggregation (ct : ChillTime) (kind : String)
    (records : List Record) (h : kind ≠ "sum") :
    ct.get_aggregate "chillTime" kind records =
      .error (.unknownAggregation kind) ∧
    ∀ s1 s2 : String, PyError.unknownAggregation s1 ≠ PyError.unknownType s2 := by
  refine ⟨?_, fun s1 s2 hc => PyError.noConfusion hc⟩
  simp [ChillTime.get_aggregate, h]

/-- Witness for C7 at the aggregate kind avg. -/
theorem C7_unsupported_aggregation_witness :
    ("avg" : String) ≠ "sum" ∧
    (ChillTime.mk "simple").get_aggregate "chillTime" "avg"
      [⟨1, some (some 40), some (some 60)⟩] =
      .error (.unknownAggregation "avg") ∧
    PyError.unknownAggregation "avg" ≠ PyError.unknownType "avg" :=
  ⟨by decide,
    (C7_unsupported_aggregation (ChillTime.mk "simple") "avg"
      [⟨1, some (some 40), some (some 60)⟩] (by decide)).1,
    (C7_unsupported_aggregation (ChillTime.mk "simple") "avg"
      [⟨1, some (some 40), some (some 60)⟩] (by decide)).2 "avg" "avg"⟩

/-- An uppercase ASCII letter shifted down 32 code points keeps that code
point value when read back. -/
lemma char_toNat_ofNat_add32 (n : Nat) (h1 : 65 ≤ n) (h2 : n ≤ 90) :
    (Char.ofNat (n + 32)).toNat = n + 32 := by
  have hv : (n + 32).isValidChar := by
    left
    omega
  simp only [Char.ofNat, hv, dif_pos, Char.ofNatAux, Char.toNat,
    UInt32.ofNatTruncate, UInt32.ofNat', UInt32.toNat, BitVec.ofNatLt,
    BitVec.toNat]

/-- The modelled str.lower character map is idempotent. -/
lemma pyLowerChar_idem (c : Char) : pyLowerChar (pyLowerChar c) = pyLowerChar c := by
  by_cases hin : 65 ≤ c.toNat ∧ c.toNat ≤ 90
  · have h1 : pyLowerChar c = Char.ofNat (c.toNat + 32) := by
      unfold pyLowerChar
      rw [if_pos hin]
    rw [h1]
    unfold pyLowerChar
    rw [if_neg]
    rw [char_toNat_ofNat_add32 c.toNat hin.1 hin.2]
    omega
  · have h1 : pyLowerChar c = c := by
      unfold pyLowerChar
      rw [if_neg hin]
    rw [h1]
    exact h1

/-- The modelled str.lower is idempotent. -/
lemma pyLower_idem (s : String) : pyLower (pyLower s) = pyLower s := by
  unfold pyLower
  rw [show (String.mk (List.map pyLowerChar s.data)).data =
      List.map pyLowerChar s.data from rfl]
  rw [List.map_map]
  rw [show pyLowerChar ∘ pyLowerChar = pyLowerChar from funext pyLowerChar_idem]

/-- C8: with no algorithm entry in the configuration both services
construct the calculator with simple, and the name is case-folded at
construction, so a calculator built from any string s equals the one built
from the lower-cased form of s. -/
theorem C8_config_default_and_casefold (s : String) :
    ChillTimeService.makeChillTime none = ChillTime.init "simple" ∧
    (ChillTimeService.makeChillTime none).algorithm = "simple" ∧
    ChillHoursService.makeChillHours none = ChillHours.init "simple" ∧
    ChillTime.init s = ChillTime.init (pyLower s) ∧
    ChillHours.init s = ChillHours.init (pyLower s) := by
  refine ⟨rfl, by decide, rfl, ?_, ?_⟩
  · simp [ChillTime.init, pyLower_idem]
  · simp [ChillHours.init, pyLower_idem]

/-- Removing a fresh element that was appended at the end restores the
list unchanged. -/
lemma removeXType_append (l : List Nat) (x : Nat) (h : x ∉ l) :
    removeXType (l ++ [x]) x = l := by
  induction l with
  | nil => simp [removeXType]
  | cons a l ih =>
    simp only [List.mem_cons, not_or] at h
    rw [List.cons_append]
    rw [show removeXType (a :: (l ++ [x])) x =
        if a = x then l ++ [x] else a :: removeXType (l ++ [x]) x from rfl]
    rw [if_neg (fun hc => h.1 hc.symm), ih h.2]

/-- C9: service startup appends exactly the one freshly built calculator
instance to the provider list, and shutdown removes exactly that instance,
so register then deregister restores the prior list and touches no other
entry; freshness of the Python object identity is the hypothesis that the
new id is not already present. -/
theorem C9_register_unregister (xtypes : List Nat) (ch : Nat) (h : ch ∉ xtypes) :
    registerXType xtypes ch = xtypes ++ [ch] ∧
    removeXType (registerXType xtypes ch) ch = xtypes :=
  ⟨rfl, removeXType_append xtypes ch h⟩

/-- Witness for C9 on the two-element registry with a fresh id. -/
theorem C9_register_unregister_witness :
    (9 ∉ [7, 8]) ∧ removeXType (registerXType [7, 8] 9) 9 = [7, 8] :=
  ⟨by decide, (C9_register_unregister [7, 8] 9 (by decide)).2⟩

/-- C10: the aggregate loop tolerates only a null temperature; a record
with a non-null in-band temperature but a null interval makes the whole
aggregate fail with TypeError instead of being skipped (first conjunct:
simple at 40 F; second: utah at 50 F, where the weighted multiply raises),
while the same streams without the offending record succeed, and a record
whose temperature is null is tolerated as a 0 contribution even if its
interval is also null. -/
theorem C10_null_interval_fails_aggregate :
    (ChillTime.mk "simple").get_aggregate "chillTime" "sum"
      [⟨1, some (some 30), some (some 60)⟩, ⟨1, some (some 40), some none⟩] =
      .error .typeError ∧
    (ChillTime.mk "utah").get_aggregate "chillTime" "sum"
      [⟨1, some (some 50), some none⟩] = .error .typeError ∧
    (ChillTime.mk "simple").get_aggregate "chillTime" "sum"
      [⟨1, some (some 30), some (some 60)⟩] = .ok ⟨1, "hour", "group_elapsed"⟩ ∧
    (ChillTime.mk "simple").get_aggregate "chillTime" "sum"
      [⟨1, some none, some none⟩] = .ok ⟨0, "hour", "group_elapsed"⟩ := by
  refine ⟨?_, ?_, ?_, ?_⟩
  all_goals simp [ChillTime.get_aggregate, ChillTime.aggStep, aggLoopCalc, optMul,
    convertValue, getStandardUnitType, stdUnit, obsGroup, List.foldlM,
    Except.bind, Except.pure]
  all_goals try norm_num
  all_goals rfl

end ChillXType
